import Mathlib

/-!
Shallow embedding of the `LocalVideoView` component of the vtuber repository
(`src/components/LocalAvatarView/LocalVideoView.tsx` and its earlier wireframe
variant), together with theorems settling the frozen claims about it.

Numeric conventions: the GLSL lip-deformation vertex shader is modelled over
the real numbers (its `distance` needs a square root); everything else in the
component (coordinate mapping, parameter store, lifecycle state machines) is
modelled over `ℚ` / `ℕ` / `Bool` so that concrete runs are decidable.
Object identity (Three.js geometries, meshes, media streams) is modelled by
allocation counters: each `new` draws a fresh natural-number id.
-/

/- ===================== GLSL lip-deformation shader ===================== -/

/-- A GLSL `vec2` value, over the reals. -/
structure Vec2 where
  x : ℝ
  y : ℝ

/-- A GLSL `vec3` value, over the reals. -/
structure Vec3 where
  x : ℝ
  y : ℝ
  z : ℝ

/-- Componentwise addition of `vec2` values (GLSL `a + b`). -/
def Vec2.add (a b : Vec2) : Vec2 := ⟨a.x + b.x, a.y + b.y⟩

/-- GLSL `clamp(x, lo, hi) = min(max(x, lo), hi)`. -/
noncomputable def glslClamp (x lo hi : ℝ) : ℝ := min (max x lo) hi

/-- GLSL `smoothstep(e0, e1, x)`: let `t = clamp((x-e0)/(e1-e0), 0, 1)`,
return `t*t*(3 - 2*t)`. -/
noncomputable def smoothstep (e0 e1 x : ℝ) : ℝ :=
  let t := glslClamp ((x - e0) / (e1 - e0)) 0 1
  t * t * (3 - 2 * t)

/-- GLSL `distance(a, b)`: Euclidean distance of two `vec2` values. -/
noncomputable def glslDistance (a b : Vec2) : ℝ :=
  Real.sqrt ((a.x - b.x) ^ 2 + (a.y - b.y) ^ 2)

/-- GLSL `normalize(v) = v / length(v)`.  GLSL leaves `normalize` undefined on
the zero vector; in this real-number model division by zero yields 0. -/
noncomputable def glslNormalize (v : Vec2) : Vec2 :=
  let len := Real.sqrt (v.x ^ 2 + v.y ^ 2)
  ⟨v.x / len, v.y / len⟩

/-- The body of `lipDeformationVertexShader`'s `main` (LocalVideoView.tsx,
lines 28-56), as the map from a vertex's `uv` and `position` and the four
uniforms to the displaced position `pos` fed to `gl_Position`:
`adjustedLipCenter = lipCenter + anchorOffset`;
`distanceToLip = distance(uv, adjustedLipCenter)`;
if `distanceToLip < deformationRadius` then
`factor = smoothstep(0, 1, (deformationRadius - distanceToLip)/deformationRadius)`,
`direction = normalize(uv - adjustedLipCenter)`,
`pos.y -= factor * deformationIntensity * 0.1`,
`pos.x += direction.x * factor * deformationIntensity * 0.03`;
otherwise the position is untouched. -/
noncomputable def lipDeformationVertexShader (uv : Vec2) (position : Vec3)
    (lipCenter anchorOffset : Vec2)
    (deformationIntensity deformationRadius : ℝ) : Vec3 :=
  let adjustedLipCenter := Vec2.add lipCenter anchorOffset
  let distanceToLip := glslDistance uv adjustedLipCenter
  if distanceToLip < deformationRadius then
    let factor := smoothstep 0 1 ((deformationRadius - distanceToLip) / deformationRadius)
    let direction := glslNormalize ⟨uv.x - adjustedLipCenter.x, uv.y - adjustedLipCenter.y⟩
    ⟨position.x + direction.x * factor * deformationIntensity * 0.03,
     position.y - factor * deformationIntensity * 0.1,
     position.z⟩
  else
    position

/- ===================== Coordinate mapper (updateFaceMesh) ===================== -/

/-- One detector landmark: normalized image coordinates, `(0,0)` top-left. -/
structure Landmark where
  x : ℚ
  y : ℚ
  z : ℚ
deriving DecidableEq

/-- The per-landmark world mapping inside `updateFaceMesh`
(LocalVideoView.tsx lines 167-169):
`x = (0.5 - landmark.x) * 2`, `y = (0.5 - landmark.y) * 1.5`,
`z = landmark.z * 0.5` (the JS `|| 0` only replaces a falsy value, and
`0 || 0 = 0`, so over exact rationals it is the identity). -/
def mapLandmark (l : Landmark) : ℚ × ℚ × ℚ :=
  ((0.5 - l.x) * 2, (0.5 - l.y) * 1.5, l.z * 0.5)

/-- `updateFaceMesh` writes, for each landmark index, the mapped world point
into the position buffer at `index * 3`; modelled as the list of world points
in landmark order. -/
def updateFaceMesh (landmarks : List Landmark) : List (ℚ × ℚ × ℚ) :=
  landmarks.map mapLandmark

/- ===================== Deformation parameter store ===================== -/

/-- The uniform block of the lip shader material: `lipCenter`, `anchorOffset`,
`deformationIntensity`, `deformationRadius` (LocalVideoView.tsx lines 362-372). -/
structure DeformUniforms where
  lipCenter : ℚ × ℚ
  anchorOffset : ℚ × ℚ
  deformationIntensity : ℚ
  deformationRadius : ℚ
deriving DecidableEq

/-- The deformation control refs plus the (possibly not yet created) shader
material whose uniforms the setters push into. -/
structure DeformState where
  deformationIntensity : ℚ
  deformationRadius : ℚ
  anchorOffsetX : ℚ
  anchorOffsetY : ℚ
  lipShader : Option DeformUniforms
deriving DecidableEq

/-- The initial ref values (LocalVideoView.tsx lines 94-97): intensity `0.0`,
radius `0.15`, anchor offset `(0.0, 0.02)`; no shader material yet. -/
def initialDeformState : DeformState :=
  { deformationIntensity := 0, deformationRadius := 0.15,
    anchorOffsetX := 0, anchorOffsetY := 0.02, lipShader := none }

/-- `setSmileIntensity` (lines 383-388): stores `Math.abs(intensity)` and, if
the shader exists, pushes the stored value into its uniform. -/
def setSmileIntensity (s : DeformState) (intensity : ℚ) : DeformState :=
  let v := |intensity|
  { s with deformationIntensity := v,
           lipShader := s.lipShader.map fun u => { u with deformationIntensity := v } }

/-- `setGrimaceIntensity` (lines 390-395): stores `-Math.abs(intensity)` and,
if the shader exists, pushes the stored value into its uniform. -/
def setGrimaceIntensity (s : DeformState) (intensity : ℚ) : DeformState :=
  let v := -|intensity|
  { s with deformationIntensity := v,
           lipShader := s.lipShader.map fun u => { u with deformationIntensity := v } }

/-- `setDeformationRadius` (lines 397-402): stores
`Math.max(0.05, Math.min(0.3, radius))` and pushes it into the uniform. -/
def setDeformationRadius (s : DeformState) (radius : ℚ) : DeformState :=
  let v := max 0.05 (min 0.3 radius)
  { s with deformationRadius := v,
           lipShader := s.lipShader.map fun u => { u with deformationRadius := v } }

/-- `setAnchorOffsetX` (lines 404-409): stores
`Math.max(-0.2, Math.min(0.2, offsetX))` and pushes the pair
`(anchorOffsetX, anchorOffsetY)` into the `anchorOffset` uniform. -/
def setAnchorOffsetX (s : DeformState) (offsetX : ℚ) : DeformState :=
  let v := max (-0.2) (min 0.2 offsetX)
  { s with anchorOffsetX := v,
           lipShader := s.lipShader.map fun u => { u with anchorOffset := (v, s.anchorOffsetY) } }

/-- `setAnchorOffsetY` (lines 411-416): stores
`Math.max(-0.2, Math.min(0.2, offsetY))` and pushes the pair
`(anchorOffsetX, anchorOffsetY)` into the `anchorOffset` uniform. -/
def setAnchorOffsetY (s : DeformState) (offsetY : ℚ) : DeformState :=
  let v := max (-0.2) (min 0.2 offsetY)
  { s with anchorOffsetY := v,
           lipShader := s.lipShader.map fun u => { u with anchorOffset := (s.anchorOffsetX, v) } }

/-- The intensity range documented by the component's own console help text
(`window.lipControls.setSmileIntensity(1.0) // 0.0 to 3.0`, lines 446-447). -/
def documentedIntensityMax : ℚ := 3

/- ===================== Stream bridge (canvas capture effect) ===================== -/

/-- State of the canvas-capture effect (LocalVideoView.tsx lines 495-500):
whether the canvas element exists, the captured stream (by id) held in
`canvasStreamRef`, the list of capture rates of the `captureStream` calls
actually made, the list of streams handed to `onCanvasStreamChanged`, and the
allocation counter for fresh stream ids. -/
structure StreamState where
  canvasExists : Bool
  canvasStream : Option ℕ
  captureCalls : List ℚ
  callbackStreams : List ℕ
  nextId : ℕ
deriving DecidableEq

/-- One run of the capture effect: return early if the canvas ref is null or a
stream already exists; otherwise call `captureStream(60)`, store the fresh
stream in the ref and hand it to `onCanvasStreamChanged`. -/
def captureEffect (s : StreamState) : StreamState :=
  if !s.canvasExists then s
  else if s.canvasStream.isSome then s
  else
    { s with canvasStream := some s.nextId,
             captureCalls := s.captureCalls ++ [60],
             callbackStreams := s.callbackStreams ++ [s.nextId],
             nextId := s.nextId + 1 }

/- ===================== Resize effect (orthographic frustum) ===================== -/

/-- The four frustum bounds of the orthographic camera. -/
structure OrthoCamera where
  left : ℚ
  right : ℚ
  top : ℚ
  bottom : ℚ
deriving DecidableEq

/-- `frustumSize = 2` (LocalVideoView.tsx lines 329 and 486). -/
def frustumSize : ℚ := 2

/-- The resize effect's frustum update (lines 484-492): with
`aspect = size.width / size.height`, set
`left = -(frustumSize*aspect)/2`, `right = (frustumSize*aspect)/2`,
`top = frustumSize/2`, `bottom = -frustumSize/2`. -/
def resizeCamera (width height : ℚ) : OrthoCamera :=
  let aspect := width / height
  { left := -(frustumSize * aspect) / 2, right := (frustumSize * aspect) / 2,
    top := frustumSize / 2, bottom := -(frustumSize / 2) }

/-- Frustum width over frustum height of an orthographic camera. -/
def frustumWidthOverHeight (c : OrthoCamera) : ℚ :=
  (c.right - c.left) / (c.top - c.bottom)

/-- Aspect of the source video requested from `createLocalVideoTrack`
(lines 458-462): width 1080, height 1920. -/
def sourceVideoAspect : ℚ := 1080 / 1920

/- ===================== Detection loop / overlay lifecycle ===================== -/

/-- Outcome of one `detectForVideo` call in a detection tick: a face was
found, no face was found, or the call threw. -/
inductive DetectionOutcome
  | found
  | noFace
  | threw
deriving DecidableEq

/-- State touched by the wireframe-variant detection loop (`part_000`):
allocation counter, the geometry / material / line-segments refs (by id), a
counter of in-place position-buffer writes performed by `updateFaceMesh`, and
the ids currently added to the scene.  The scene itself is assumed created
(`setupThreeJS` has run). -/
structure FaceMeshState where
  nextId : ℕ := 0
  faceGeometry : Option ℕ := none
  faceMaterial : Option ℕ := none
  faceMesh : Option ℕ := none
  positionWrites : ℕ := 0
  sceneChildren : List ℕ := []
deriving DecidableEq

/-- `initializeFaceMesh` (`part_000` lines 77-98): if geometry and material
both exist already it returns; otherwise it allocates a fresh
`BufferGeometry` and `LineBasicMaterial` (fixed index buffer and a 468×3
position buffer are set once here). -/
def initializeFaceMesh (s : FaceMeshState) : FaceMeshState :=
  if s.faceGeometry.isSome && s.faceMaterial.isSome then s
  else
    { s with faceGeometry := some s.nextId,
             faceMaterial := some (s.nextId + 1),
             nextId := s.nextId + 2 }

/-- The in-place buffer write of `updateFaceMesh` (`part_000` lines 100-119):
with geometry and material present and a nonempty landmark list, it rewrites
the existing position array (no allocation) and marks it dirty; modelled by
bumping `positionWrites`. -/
def writeFaceMeshPositions (s : FaceMeshState) (hasLandmarks : Bool) : FaceMeshState :=
  if s.faceGeometry.isSome && s.faceMaterial.isSome && hasLandmarks then
    { s with positionWrites := s.positionWrites + 1 }
  else s

/-- `createOrUpdateFaceMesh` (`part_000` lines 121-144): return early on an
empty landmark list; initialize geometry/material if needed; rewrite the
position buffer; then, only if no `LineSegments` exists yet, allocate one and
add it to the scene (otherwise the existing mesh is reused unchanged). -/
def createOrUpdateFaceMesh (s : FaceMeshState) (hasLandmarks : Bool) : FaceMeshState :=
  if !hasLandmarks then s
  else
    let s1 := initializeFaceMesh s
    let s2 := writeFaceMeshPositions s1 hasLandmarks
    match s2.faceMesh with
    | some _ => s2
    | none =>
        { s2 with faceMesh := some s2.nextId,
                  nextId := s2.nextId + 1,
                  sceneChildren := s2.sceneChildren ++ [s2.nextId] }

/-- `removeFaceMesh` (`part_000` lines 146-151): if a mesh exists, remove it
from the scene and clear the ref; idempotent. -/
def removeFaceMesh (s : FaceMeshState) : FaceMeshState :=
  match s.faceMesh with
  | some m =>
      { s with faceMesh := none,
               sceneChildren := s.sceneChildren.filter (fun i => i != m) }
  | none => s

/-- One tick of the wireframe variant's detection loop `detectFaceMesh`
(`part_000` lines 202-219), with the landmarker and video ready: a found face
runs `createOrUpdateFaceMesh`; an empty result runs `removeFaceMesh`; a
thrown `detectForVideo` is caught and logged, changing nothing.  The returned
`Bool` records that `requestAnimationFrame(detectFaceMesh)` is reached, i.e.
the next tick is scheduled (it sits after the try/catch, on every path). -/
def detectFaceMeshTick (s : FaceMeshState) (r : DetectionOutcome) : FaceMeshState × Bool :=
  match r with
  | .found => (createOrUpdateFaceMesh s true, true)
  | .noFace => (removeFaceMesh s, true)
  | .threw => (s, true)

/- ===================== Bounding box lifecycle (lip-deformation variant) ===================== -/

/-- State touched by the bounding-box logic of the lip-deformation variant
(LocalVideoView.tsx): allocation counter, the `showFaceBoundingBox` flag, the
box `LineSegments` ref (by id), a counter of in-place scale/position updates,
and the ids currently added to the scene. -/
structure BoundingBoxState where
  nextId : ℕ := 0
  showFaceBoundingBox : Bool := false
  faceBoundingBox : Option ℕ := none
  boxUpdates : ℕ := 0
  sceneChildren : List ℕ := []
deriving DecidableEq

/-- `createOrUpdateFaceBoundingBox` (LocalVideoView.tsx lines 504-610):
return early on an empty landmark list; if no box exists, allocate the
outline `LineSegments` and add it to the scene; then always update its scale
and position in place from the landmark extents.  It never consults
`showFaceBoundingBox`. -/
def createOrUpdateFaceBoundingBox (s : BoundingBoxState) (hasLandmarks : Bool) :
    BoundingBoxState :=
  if !hasLandmarks then s
  else
    let s1 :=
      match s.faceBoundingBox with
      | some _ => s
      | none =>
          { s with faceBoundingBox := some s.nextId,
                   nextId := s.nextId + 1,
                   sceneChildren := s.sceneChildren ++ [s.nextId] }
    { s1 with boxUpdates := s1.boxUpdates + 1 }

/-- `removeFaceBoundingBox` (lines 612-622): if the box exists, remove it
from the scene and clear the ref; idempotent. -/
def removeFaceBoundingBox (s : BoundingBoxState) : BoundingBoxState :=
  match s.faceBoundingBox with
  | some m =>
      { s with faceBoundingBox := none,
               sceneChildren := s.sceneChildren.filter (fun i => i != m) }
  | none => s

/-- `toggleFaceBoundingBox` (lines 418-427): flip the flag; when the new
value is `false`, also run `removeFaceBoundingBox`.  Turning the flag on
removes nothing and creates nothing. -/
def toggleFaceBoundingBox (s : BoundingBoxState) : BoundingBoxState :=
  let newValue := !s.showFaceBoundingBox
  if newValue then { s with showFaceBoundingBox := newValue }
  else { removeFaceBoundingBox s with showFaceBoundingBox := newValue }

/-- One tick of the lip-deformation variant's detection loop
`detectFaceLandmarks` (LocalVideoView.tsx lines 281-297), with the landmarker
and video ready: a found face runs `updateLipDeformation` (a pure uniform
write, modelled separately on `DeformState`; it touches no scene object) and
then `createOrUpdateFaceBoundingBox`; an empty result does nothing (there is
no else branch); a thrown `detectForVideo` is caught and logged.  The `Bool`
records that `requestAnimationFrame(detectFaceLandmarks)` is reached on every
path. -/
def detectFaceLandmarksTick (s : BoundingBoxState) (r : DetectionOutcome) :
    BoundingBoxState × Bool :=
  match r with
  | .found => (createOrUpdateFaceBoundingBox s true, true)
  | .noFace => (s, true)
  | .threw => (s, true)

/- ===================== Theorems ===================== -/

/-- Claim C3: over the detection-cycle sequence `[face, face, none, face]`,
the wireframe overlay mesh is created and added to the scene on cycle 1,
updated in place on cycle 2 (same mesh id, same geometry id, no fresh
allocation, one more position-buffer write), removed from the scene on
cycle 3, and recreated and re-added on cycle 4. -/
theorem face_mesh_lifecycle :
    (((detectFaceMeshTick {} .found).1).faceMesh = some 2 ∧
      ((detectFaceMeshTick {} .found).1).sceneChildren = [2]) ∧
    (((detectFaceMeshTick (detectFaceMeshTick {} .found).1 .found).1).faceMesh =
        ((detectFaceMeshTick {} .found).1).faceMesh ∧
      ((detectFaceMeshTick (detectFaceMeshTick {} .found).1 .found).1).faceGeometry =
        ((detectFaceMeshTick {} .found).1).faceGeometry ∧
      ((detectFaceMeshTick (detectFaceMeshTick {} .found).1 .found).1).nextId =
        ((detectFaceMeshTick {} .found).1).nextId ∧
      ((detectFaceMeshTick (detectFaceMeshTick {} .found).1 .found).1).positionWrites =
        ((detectFaceMeshTick {} .found).1).positionWrites + 1) ∧
    (((detectFaceMeshTick (detectFaceMeshTick (detectFaceMeshTick {} .found).1 .found).1
        .noFace).1).faceMesh = none ∧
      ((detectFaceMeshTick (detectFaceMeshTick (detectFaceMeshTick {} .found).1 .found).1
        .noFace).1).sceneChildren = []) ∧
    (((detectFaceMeshTick (detectFaceMeshTick (detectFaceMeshTick
        (detectFaceMeshTick {} .found).1 .found).1 .noFace).1 .found).1).faceMesh = some 3 ∧
      ((detectFaceMeshTick (detectFaceMeshTick (detectFaceMeshTick
        (detectFaceMeshTick {} .found).1 .found).1 .noFace).1 .found).1).sceneChildren = [3]) := by
  decide

/-- Claim C5: the radius and anchor-offset setters clamp out-of-range inputs:
`setDeformationRadius (-5)` stores `0.05`, `setDeformationRadius 5` stores
`0.3`, `setAnchorOffsetX 10` stores `0.2`; and for every input the stored
radius lies in `[0.05, 0.3]` and each stored anchor-offset component lies in
`[-0.2, 0.2]`. -/
theorem setters_clamp_out_of_range (s : DeformState) (r ax ay : ℚ) :
    (setDeformationRadius s (-5)).deformationRadius = 0.05 ∧
    (setDeformationRadius s 5).deformationRadius = 0.3 ∧
    (setAnchorOffsetX s 10).anchorOffsetX = 0.2 ∧
    (0.05 ≤ (setDeformationRadius s r).deformationRadius ∧
      (setDeformationRadius s r).deformationRadius ≤ 0.3) ∧
    (-0.2 ≤ (setAnchorOffsetX s ax).anchorOffsetX ∧
      (setAnchorOffsetX s ax).anchorOffsetX ≤ 0.2) ∧
    (-0.2 ≤ (setAnchorOffsetY s ay).anchorOffsetY ∧
      (setAnchorOffsetY s ay).anchorOffsetY ≤ 0.2) := by
  refine ⟨by simp only [setDeformationRadius]; norm_num [min_def, max_def],
          by simp only [setDeformationRadius]; norm_num [min_def, max_def],
          by simp only [setAnchorOffsetX]; norm_num [min_def, max_def], ?_, ?_, ?_⟩
  · exact ⟨le_max_left _ _, max_le (by norm_num) (min_le_left _ _)⟩
  · exact ⟨le_max_left _ _, max_le (by norm_num) (min_le_left _ _)⟩
  · exact ⟨le_max_left _ _, max_le (by norm_num) (min_le_left _ _)⟩

/-- Claim C6: for `x > 0`, `setSmileIntensity x` stores `+x` and a subsequent
`setGrimaceIntensity x` stores `-x`: the sign alone switches between smile
and grimace while the magnitude is preserved. -/
theorem smile_then_grimace_sign_toggle (s : DeformState) (x : ℚ) (hx : 0 < x) :
    (setSmileIntensity s x).deformationIntensity = x ∧
    (setGrimaceIntensity (setSmileIntensity s x) x).deformationIntensity = -x := by
  constructor
  · simp [setSmileIntensity, abs_of_pos hx]
  · simp [setSmileIntensity, setGrimaceIntensity, abs_of_pos hx]

/-- Witness for C6 at `x = 1.5` from the component's initial state. -/
theorem smile_then_grimace_sign_toggle_witness :
    (0:ℚ) < 1.5 ∧
    (setSmileIntensity initialDeformState 1.5).deformationIntensity = 1.5 ∧
    (setGrimaceIntensity (setSmileIntensity initialDeformState 1.5) 1.5).deformationIntensity
      = -1.5 := by
  have H := smile_then_grimace_sign_toggle initialDeformState 1.5 (by norm_num)
  exact ⟨by norm_num, H.1, H.2⟩

/-- Claim C4 (amended): the radius and anchor-offset setters clamp to their
documented ranges before storing, and every setter pushes exactly the stored
value into the shader uniforms when a shader exists; the intensity setters,
however, perform no range clamping — they store the signed absolute value of
the argument (`|v|` for smile, `-|v|` for grimace). -/
theorem setters_store_and_push (s : DeformState) (v : ℚ) :
    (0.05 ≤ (setDeformationRadius s v).deformationRadius ∧
      (setDeformationRadius s v).deformationRadius ≤ 0.3) ∧
    (-0.2 ≤ (setAnchorOffsetX s v).anchorOffsetX ∧
      (setAnchorOffsetX s v).anchorOffsetX ≤ 0.2) ∧
    (-0.2 ≤ (setAnchorOffsetY s v).anchorOffsetY ∧
      (setAnchorOffsetY s v).anchorOffsetY ≤ 0.2) ∧
    (setSmileIntensity s v).deformationIntensity = |v| ∧
    (setGrimaceIntensity s v).deformationIntensity = -|v| ∧
    ((setDeformationRadius s v).lipShader.map DeformUniforms.deformationRadius =
      s.lipShader.map fun _ => (setDeformationRadius s v).deformationRadius) ∧
    ((setSmileIntensity s v).lipShader.map DeformUniforms.deformationIntensity =
      s.lipShader.map fun _ => (setSmileIntensity s v).deformationIntensity) ∧
    ((setGrimaceIntensity s v).lipShader.map DeformUniforms.deformationIntensity =
      s.lipShader.map fun _ => (setGrimaceIntensity s v).deformationIntensity) ∧
    ((setAnchorOffsetX s v).lipShader.map DeformUniforms.anchorOffset =
      s.lipShader.map fun _ => ((setAnchorOffsetX s v).anchorOffsetX,
        (setAnchorOffsetX s v).anchorOffsetY)) ∧
    ((setAnchorOffsetY s v).lipShader.map DeformUniforms.anchorOffset =
      s.lipShader.map fun _ => ((setAnchorOffsetY s v).anchorOffsetX,
        (setAnchorOffsetY s v).anchorOffsetY)) := by
  refine ⟨⟨le_max_left _ _, max_le (by norm_num) (min_le_left _ _)⟩,
          ⟨le_max_left _ _, max_le (by norm_num) (min_le_left _ _)⟩,
          ⟨le_max_left _ _, max_le (by norm_num) (min_le_left _ _)⟩,
          rfl, rfl, ?_, ?_, ?_, ?_, ?_⟩ <;>
    cases h : s.lipShader <;>
      simp [setDeformationRadius, setSmileIntensity, setGrimaceIntensity,
        setAnchorOffsetX, setAnchorOffsetY, h]

/-- Counterexample to claim C4 as stated: `setSmileIntensity 5` stores `5`,
above the documented intensity maximum `3.0` — the intensity setters do not
clamp to the documented range. -/
theorem setSmileIntensity_not_clamped :
    (setSmileIntensity initialDeformState 5).deformationIntensity = 5 ∧
    documentedIntensityMax < (setSmileIntensity initialDeformState 5).deformationIntensity := by
  constructor
  · simp [setSmileIntensity, initialDeformState]
  · simp [setSmileIntensity, initialDeformState, documentedIntensityMax]
    norm_num

/-- Claim C7: starting from a state where the canvas exists and no stream has
been captured yet, one run of the capture effect captures the canvas exactly
once at 60 samples per second and hands the stream to the callback exactly
once; a second run is a no-op, retaining the same stream identity. -/
theorem canvas_stream_captured_once (s : StreamState)
    (hc : s.canvasExists = true) (h0 : s.canvasStream = none)
    (hcap : s.captureCalls = []) (hcb : s.callbackStreams = []) :
    (captureEffect s).canvasStream = some s.nextId ∧
    (captureEffect s).captureCalls = [60] ∧
    (captureEffect s).callbackStreams = [s.nextId] ∧
    captureEffect (captureEffect s) = captureEffect s := by
  obtain ⟨c, st, cap, cb, n⟩ := s
  cases hc; cases h0; cases hcap; cases hcb
  simp [captureEffect]

/-- Witness for C7 at the concrete initial state. -/
theorem canvas_stream_captured_once_witness :
    (captureEffect ⟨true, none, [], [], 0⟩).canvasStream = some 0 ∧
    (captureEffect ⟨true, none, [], [], 0⟩).captureCalls = [60] ∧
    (captureEffect ⟨true, none, [], [], 0⟩).callbackStreams = [0] ∧
    captureEffect (captureEffect ⟨true, none, [], [], 0⟩) =
      captureEffect ⟨true, none, [], [], 0⟩ :=
  canvas_stream_captured_once ⟨true, none, [], [], 0⟩ rfl rfl rfl rfl

/-- Claim C8 (amended): after a resize to container dimensions
`width × height`, the orthographic frustum's width/height quotient equals the
container aspect `width / height` (so world geometry, the video plane
included, is rendered without stretching); it equals the fixed source-video
aspect exactly when the container has that aspect, not after every resize. -/
theorem resize_frustum_matches_container (width height : ℚ) :
    frustumWidthOverHeight (resizeCamera width height) = width / height := by
  simp only [frustumWidthOverHeight, resizeCamera, frustumSize]
  ring_nf

/-- Counterexample to claim C8 as stated: resizing to a 1920×1080 container
yields a frustum width/height quotient of `16/9`, not the fixed source-video
aspect `1080/1920`. -/
theorem resize_frustum_not_source_aspect :
    frustumWidthOverHeight (resizeCamera 1920 1080) ≠ sourceVideoAspect := by
  simp only [frustumWidthOverHeight, resizeCamera, frustumSize, sourceVideoAspect]
  norm_num

/-- Claim C9 (amended): a thrown `detectForVideo` call is caught: in both
detection loops it leaves the component state unchanged and the next tick is
still scheduled on every outcome, so a per-call failure never terminates the
loop; in the lip-deformation loop an error cycle coincides with a no-face
cycle, but in the wireframe loop it does not in general (an error cycle
leaves the overlay mesh in place, while a no-face cycle removes it). -/
theorem detection_error_caught_loop_continues (sM : FaceMeshState)
    (sB : BoundingBoxState) (r : DetectionOutcome) :
    (detectFaceMeshTick sM r).2 = true ∧
    (detectFaceLandmarksTick sB r).2 = true ∧
    (detectFaceMeshTick sM .threw).1 = sM ∧
    (detectFaceLandmarksTick sB .threw).1 = sB ∧
    (detectFaceLandmarksTick sB .threw).1 = (detectFaceLandmarksTick sB .noFace).1 := by
  cases r <;> simp [detectFaceMeshTick, detectFaceLandmarksTick]

/-- Counterexample to claim C9 as stated: in the wireframe detection loop an
error cycle is not treated as "no face visible" — starting from the state
after one successful detection, a thrown call leaves the overlay mesh in the
scene, while a genuine no-face cycle removes it. -/
theorem detection_error_not_treated_as_no_face :
    ((detectFaceMeshTick (detectFaceMeshTick {} .found).1 .threw).1).faceMesh = some 2 ∧
    ((detectFaceMeshTick (detectFaceMeshTick {} .found).1 .noFace).1).faceMesh = none := by
  decide

/-- Claim C10: a successful detection cycle always runs
`createOrUpdateFaceBoundingBox`, regardless of the `showFaceBoundingBox`
flag, so the box is present after every face-found cycle; a no-face cycle
never removes the box; and after toggling visibility off (which removes the
box), the very next face-found cycle re-creates the box and re-adds it to the
scene while the flag stays off. -/
theorem bounding_box_recreated_regardless_of_flag (s : BoundingBoxState) :
    ((detectFaceLandmarksTick s .found).1.faceBoundingBox).isSome = true ∧
    (detectFaceLandmarksTick s .noFace).1 = s ∧
    ((toggleFaceBoundingBox
        { nextId := 1, showFaceBoundingBox := true, faceBoundingBox := some 0,
          boxUpdates := 1, sceneChildren := [0] }).showFaceBoundingBox = false ∧
      (toggleFaceBoundingBox
        { nextId := 1, showFaceBoundingBox := true, faceBoundingBox := some 0,
          boxUpdates := 1, sceneChildren := [0] }).faceBoundingBox = none ∧
      (toggleFaceBoundingBox
        { nextId := 1, showFaceBoundingBox := true, faceBoundingBox := some 0,
          boxUpdates := 1, sceneChildren := [0] }).sceneChildren = []) ∧
    (((detectFaceLandmarksTick (toggleFaceBoundingBox
        { nextId := 1, showFaceBoundingBox := true, faceBoundingBox := some 0,
          boxUpdates := 1, sceneChildren := [0] }) .found).1).faceBoundingBox = some 1 ∧
      ((detectFaceLandmarksTick (toggleFaceBoundingBox
        { nextId := 1, showFaceBoundingBox := true, faceBoundingBox := some 0,
          boxUpdates := 1, sceneChildren := [0] }) .found).1).sceneChildren = [1] ∧
      ((detectFaceLandmarksTick (toggleFaceBoundingBox
        { nextId := 1, showFaceBoundingBox := true, faceBoundingBox := some 0,
          boxUpdates := 1, sceneChildren := [0] }) .found).1).showFaceBoundingBox = false) := by
  refine ⟨?_, by simp [detectFaceLandmarksTick], by decide, by decide⟩
  cases h : s.faceBoundingBox <;>
    simp [detectFaceLandmarksTick, createOrUpdateFaceBoundingBox, h]

/-- Claim C2: for a landmark set of 468 points with `x, y ∈ [0,1]`, every
world point produced by the face-mesh coordinate mapping has
`worldX ∈ [-1, 1]` and `worldY ∈ [-0.75, 0.75]` — the extents of the 2×1.5
plane — and the boundary inputs `(0,0)` and `(1,1)` map to the corner
extrema `(1, 0.75)` and `(-1, -0.75)`. -/
theorem face_mesh_world_bounds (landmarks : List Landmark) (p : ℚ × ℚ × ℚ)
    (_hlen : landmarks.length = 468)
    (hin : ∀ l ∈ landmarks, 0 ≤ l.x ∧ l.x ≤ 1 ∧ 0 ≤ l.y ∧ l.y ≤ 1)
    (hp : p ∈ updateFaceMesh landmarks) :
    (-1 ≤ p.1 ∧ p.1 ≤ 1 ∧ -(0.75 : ℚ) ≤ p.2.1 ∧ p.2.1 ≤ 0.75) ∧
    mapLandmark ⟨0, 0, 0⟩ = (1, 0.75, 0) ∧
    mapLandmark ⟨1, 1, 0⟩ = (-1, -0.75, 0) := by
  refine ⟨?_, by norm_num [mapLandmark], by norm_num [mapLandmark]⟩
  obtain ⟨l, hl, rfl⟩ := List.mem_map.mp hp
  obtain ⟨hx0, hx1, hy0, hy1⟩ := hin l hl
  simp only [mapLandmark]
  refine ⟨by linarith, by linarith, by linarith, by linarith⟩

/-- Witness for C2 at the 468-point landmark set with every point at
`(0.5, 0.5, 0)`, whose mapped world point is `(0, 0, 0)`. -/
theorem face_mesh_world_bounds_witness :
    ((-1 ≤ (0 : ℚ) ∧ (0 : ℚ) ≤ 1 ∧ -(0.75 : ℚ) ≤ 0 ∧ (0 : ℚ) ≤ 0.75) ∧
      mapLandmark ⟨0, 0, 0⟩ = (1, 0.75, 0) ∧
      mapLandmark ⟨1, 1, 0⟩ = (-1, -0.75, 0)) :=
  face_mesh_world_bounds (List.replicate 468 ⟨0.5, 0.5, 0⟩) (0, 0, 0)
    (by rw [List.length_replicate])
    (by intro l hl; rw [List.eq_of_mem_replicate hl]; norm_num)
    (by norm_num [updateFaceMesh, List.map_replicate, List.mem_replicate, mapLandmark])

/-- Claim C1: in the lip-deformation vertex shader, a vertex whose UV equals
`lipCenter + anchorOffset` has distance `0` and falloff factor `1` (also `1`
after `smoothstep`), so its y position is displaced by exactly
`-deformationIntensity * 0.1`; and any vertex whose UV lies at distance
`≥ deformationRadius` from `lipCenter + anchorOffset` is not displaced at
all.  (The falloff division requires a positive radius; the stored radius is
always in `[0.05, 0.3]`.) -/
theorem lip_shader_center_and_outside (lipCenter anchorOffset : Vec2)
    (position : Vec3) (deformationIntensity deformationRadius : ℝ) (uv : Vec2)
    (hr : 0 < deformationRadius)
    (hfar : deformationRadius ≤ glslDistance uv (Vec2.add lipCenter anchorOffset)) :
    glslDistance (Vec2.add lipCenter anchorOffset) (Vec2.add lipCenter anchorOffset) = 0 ∧
    smoothstep 0 1 ((deformationRadius -
        glslDistance (Vec2.add lipCenter anchorOffset) (Vec2.add lipCenter anchorOffset)) /
        deformationRadius) = 1 ∧
    (lipDeformationVertexShader (Vec2.add lipCenter anchorOffset) position lipCenter
        anchorOffset deformationIntensity deformationRadius).y =
      position.y - deformationIntensity * 0.1 ∧
    lipDeformationVertexShader uv position lipCenter anchorOffset
        deformationIntensity deformationRadius = position := by
  have hd0 : glslDistance (Vec2.add lipCenter anchorOffset)
      (Vec2.add lipCenter anchorOffset) = 0 := by
    simp [glslDistance]
  have harg : (deformationRadius - 0) / deformationRadius = 1 := by
    rw [sub_zero]
    exact div_self (ne_of_gt hr)
  have hfac : smoothstep 0 1 ((deformationRadius -
      glslDistance (Vec2.add lipCenter anchorOffset) (Vec2.add lipCenter anchorOffset)) /
      deformationRadius) = 1 := by
    rw [hd0, harg]
    norm_num [smoothstep, glslClamp]
  refine ⟨hd0, hfac, ?_, ?_⟩
  · simp only [lipDeformationVertexShader]
    rw [if_pos (by rw [hd0]; exact hr)]
    simp only [hfac]
    ring_nf
  · have hnlt : ¬ (glslDistance uv (Vec2.add lipCenter anchorOffset) < deformationRadius) :=
      not_lt.mpr hfar
    simp only [lipDeformationVertexShader]
    rw [if_neg hnlt]

/-- Witness for C1: lip center `(3/10, 2/5)`, zero anchor offset, intensity
`2`, radius `3/20`, origin vertex; the far UV `(0,0)` is at distance `1/2`
from the adjusted center. -/
theorem lip_shader_center_and_outside_witness :
    (0:ℝ) < 3/20 ∧
    (3/20 : ℝ) ≤ glslDistance ⟨0, 0⟩ (Vec2.add ⟨3/10, 2/5⟩ ⟨0, 0⟩) ∧
    glslDistance (Vec2.add ⟨3/10, 2/5⟩ ⟨0, 0⟩) (Vec2.add ⟨3/10, 2/5⟩ ⟨0, 0⟩) = 0 ∧
    smoothstep 0 1 (((3/20 : ℝ) - glslDistance (Vec2.add ⟨3/10, 2/5⟩ ⟨0, 0⟩)
        (Vec2.add ⟨3/10, 2/5⟩ ⟨0, 0⟩)) / (3/20)) = 1 ∧
    (lipDeformationVertexShader (Vec2.add ⟨3/10, 2/5⟩ ⟨0, 0⟩) ⟨0, 0, 0⟩ ⟨3/10, 2/5⟩
        ⟨0, 0⟩ 2 (3/20)).y = (0:ℝ) - 2 * 0.1 ∧
    lipDeformationVertexShader ⟨0, 0⟩ ⟨0, 0, 0⟩ ⟨3/10, 2/5⟩ ⟨0, 0⟩ 2 (3/20) =
      (⟨0, 0, 0⟩ : Vec3) := by
  have hdist : glslDistance ⟨0, 0⟩ (Vec2.add ⟨3/10, 2/5⟩ ⟨0, 0⟩) = 1/2 := by
    show Real.sqrt (((0:ℝ) - (3/10 + 0)) ^ 2 + ((0:ℝ) - (2/5 + 0)) ^ 2) = 1/2
    rw [show ((0:ℝ) - (3/10 + 0)) ^ 2 + ((0:ℝ) - (2/5 + 0)) ^ 2 = (1/2) ^ 2 by norm_num]
    exact Real.sqrt_sq (by norm_num)
  have hr : (0:ℝ) < 3/20 := by norm_num
  have hfar : (3/20 : ℝ) ≤ glslDistance ⟨0, 0⟩ (Vec2.add ⟨3/10, 2/5⟩ ⟨0, 0⟩) := by
    rw [hdist]; norm_num
  have H := lip_shader_center_and_outside ⟨3/10, 2/5⟩ ⟨0, 0⟩ ⟨0, 0, 0⟩ 2 (3/20) ⟨0, 0⟩ hr hfar
  exact ⟨hr, hfar, H.1, H.2.1, H.2.2.1, H.2.2.2⟩
